import Mathlib

/-!
Verification development for the Trinetra backend (FastAPI service in
src/main.py and src/sos_endpoints.py).

The embedding mirrors the Python source:

* Python dicts keyed by strings become insertion-ordered association
  lists (`dictGet` / `dictSet` below mirror `d.get(k)` / `d[k] = v`).
* `datetime` values become integers (seconds since the epoch; the claims
  speak in whole seconds); `now - last_seen > STALE_AFTER` becomes an
  integer comparison against 90.
* Latitude/longitude and the haversine computation are modelled over
  the reals.
* Python truthiness on optional strings and numbers (`if payload.nickname:`,
  `payload.accuracy and ...`) is modelled by explicit `pyTruthy` checks:
  `None`, the empty string and `0.0` are falsy.
* `asyncio.Lock` is modelled explicitly in the broadcast executor: the
  locks are not reentrant, so acquiring a lock already held by the same
  task is a deadlock (the task suspends forever).
-/

namespace Trinetra

/-- Python dict lookup `m.get(k)`: first binding wins (keys are unique in a
Python dict; the association lists built by `dictSet` keep them unique). -/
def dictGet {α : Type} : List (String × α) → String → Option α
  | [], _ => none
  | p :: t, k => if p.1 = k then some p.2 else dictGet t k

/-- `k in m` on a Python dict. -/
def dictHasKey {α : Type} : List (String × α) → String → Bool
  | [], _ => false
  | p :: t, k => p.1 = k || dictHasKey t k

/-- Python dict assignment `m[k] = v`: updates the binding in place when the
key exists (Python dicts keep the key's insertion position), otherwise
appends a new binding. -/
def dictSet {α : Type} (m : List (String × α)) (k : String) (v : α) :
    List (String × α) :=
  if dictHasKey m k then
    m.map (fun p => if p.1 = k then (k, v) else p)
  else
    m ++ [(k, v)]

/-- Python truthiness of an optional string: `None` and `""` are falsy. -/
def pyTruthyStr : Option String → Bool
  | none => false
  | some s => s ≠ ""

/-- Python truthiness of an optional number: `None` and `0.0` are falsy. -/
def pyTruthyQ : Option ℚ → Bool
  | none => false
  | some a => a ≠ 0

/-- Python `x or y` on optional strings (used as `payload.nickname or
state.nickname`): keeps `y` when `x` is falsy. -/
def pyOrStr (x y : Option String) : Option String :=
  if pyTruthyStr x then x else y

/-- Python `x or y` where `x` is a required string (used as
`payload.officer_name or state.officer_name`): `""` is falsy. -/
def pyOrStr' (x : String) (y : String) : String :=
  if x = "" then y else x

/-- A drone's `last_location` dict, as built by `ingest_location`
(src/main.py lines 291-298). -/
structure DroneLoc where
  lat : ℝ
  lng : ℝ
  speed : Option ℝ
  alt : Option ℝ
  heading : Option ℝ
  timestamp : ℤ

/-- An officer's `last_location` dict: `{"lat", "lng", "accuracy",
"timestamp"}` as built by `ingest_officer_location` (src/main.py lines
408-413); `trigger_sos` builds one without the accuracy key
(src/sos_endpoints.py line 127), modelled as `accuracy = none`. -/
structure OfficerLoc where
  lat : ℝ
  lng : ℝ
  accuracy : Option ℚ
  timestamp : ℤ

/-- The `DroneState` dataclass (src/main.py lines 39-45). -/
structure DroneState where
  drone_id : String
  nickname : Option String
  is_live : Bool
  last_location : Option DroneLoc
  last_seen : ℤ

/-- The `OfficerState` dataclass (src/main.py lines 48-55) together with the
five SOS attributes that src/sos_endpoints.py stores on instances
dynamically (`officer.sos_active = True` and friends).  The dataclass itself
declares only the first six fields — `officerStateInitFields` below records
that fact, which matters because the dataclass-generated `__init__` rejects
keyword arguments that are not declared fields.  The SOS attributes are
never read before being written anywhere in the source, so giving them
inactive defaults here is observationally faithful. -/
structure OfficerState where
  officer_id : String
  officer_name : String
  badge_number : Option String
  is_online : Bool
  last_location : Option OfficerLoc
  last_seen : ℤ
  sos_active : Bool := false
  sos_triggered_at : Option ℤ := none
  sos_type : Option String := none
  sos_message : Option String := none
  sos_audio_url : Option String := none

/-- The field names declared by the `OfficerState` dataclass (src/main.py
lines 48-55).  A Python `@dataclass` generates an `__init__` accepting
exactly these keyword arguments; any other keyword raises `TypeError`. -/
def officerStateInitFields : List String :=
  ["officer_id", "officer_name", "badge_number", "is_online",
   "last_location", "last_seen"]

/-- The keyword arguments that `trigger_sos` passes to `OfficerState(...)`
when the triggering officer is unknown (src/sos_endpoints.py lines
122-134). -/
def triggerSosNewStateKwargs : List String :=
  ["officer_id", "officer_name", "badge_number", "is_online",
   "last_location", "last_seen", "sos_active", "sos_triggered_at",
   "sos_type", "sos_message", "sos_audio_url"]

/-- Python's keyword-argument check for a dataclass constructor call: every
provided keyword must be a declared field, else `TypeError`. -/
def kwargsAccepted (declared provided : List String) : Bool :=
  provided.all (fun k => declared.contains k)

/-- `STALE_AFTER = timedelta(seconds=90)` (src/main.py line 125). -/
def STALE_AFTER : ℤ := 90

/-- The websocket messages `broadcast` fans out (only the fields the claims
mention are carried; the `type` discriminator becomes the constructor). -/
inductive Event where
  | status (drone_id : String) (is_live : Bool) (nickname : Option String)
  | officerStatus (officer_id : String) (is_online : Bool)
      (officer_name : String)
  | locationUpdate (drone_id : String) (lat lng : ℝ)
  | officerLocationUpdate (officer_id : String) (lat lng : ℝ)
  | officerSosAlert (officer_id : String) (nearby_officers : List String)
  | officerSosCancelled (officer_id : String) (reason : String)

/-- Shared mutable state touched by `broadcast` and the two prune
functions: the `drones` and `officers` dicts and the dashboard client set
(src/main.py lines 118-120).  Each client carries a flag saying whether its
`send_json` raises (modelling a broken transport). -/
structure Sys where
  drones : List (String × DroneState)
  officers : List (String × OfficerState)
  clients : List (String × Bool)

/-- Which of the three `asyncio.Lock`s the current task already holds
(src/main.py lines 121-123).  `asyncio.Lock` is not reentrant: a second
`async with` on a held lock in the same task suspends forever. -/
structure Locks where
  drones : Bool
  officers : Bool
  clients : Bool

/-- All locks free: the situation at the top of every request handler. -/
def Locks.free : Locks := ⟨false, false, false⟩

/-- Result of executing `broadcast` (or a prune) in a single task:
either the call returns with the new state and the list of
(client, event) deliveries actually performed, or the task deadlocks
re-acquiring a lock it already holds — the state and deliveries at the
moment of the hang are recorded — or the step budget ran out. -/
inductive ExecRes where
  | ok (s : Sys) (sent : List ((String × Bool) × Event))
  | deadlock (s : Sys) (sent : List ((String × Bool) × Event))
  | fuelOut

/-- The `stale_ids` list comprehension of `prune_stale_drones`
(src/main.py lines 171-175). -/
def staleDroneIds (drones : List (String × DroneState)) (now : ℤ) :
    List String :=
  (drones.filter (fun p => p.2.is_live && decide (now - p.2.last_seen > STALE_AFTER))).map
    (fun p => p.1)

/-- The `stale_ids` list comprehension of `prune_stale_officers`
(src/main.py lines 191-195). -/
def staleOfficerIds (officers : List (String × OfficerState)) (now : ℤ) :
    List String :=
  (officers.filter (fun p => p.2.is_online && decide (now - p.2.last_seen > STALE_AFTER))).map
    (fun p => p.1)

/-- Flip `drones[drone_id].is_live = False` (src/main.py line 177). -/
def flipDrone (drones : List (String × DroneState)) (drone_id : String) :
    List (String × DroneState) :=
  drones.map (fun p => if p.1 = drone_id then (p.1, { p.2 with is_live := false }) else p)

/-- Flip `officers[officer_id].is_online = False` (src/main.py line 197). -/
def flipOfficer (officers : List (String × OfficerState)) (officer_id : String) :
    List (String × OfficerState) :=
  officers.map (fun p => if p.1 = officer_id then (p.1, { p.2 with is_online := false }) else p)

/-- The client section of `broadcast` (src/main.py lines 211-221): every
current client is attempted in order; a client whose send raises is noted
and discarded after the loop; the exception is swallowed.  Returns the
surviving client set and the deliveries made. -/
def deliverLoop (clients : List (String × Bool)) (msg : Event) :
    List (String × Bool) × List ((String × Bool) × Event) :=
  if clients.isEmpty then (clients, [])
  else
    (clients.filter (fun c => !c.2),
     (clients.filter (fun c => !c.2)).map (fun c => (c, msg)))

mutual

/-- `broadcast(message)` (src/main.py lines 208-221): first
`prune_stale_drones()`, then `prune_stale_officers()`, then deliver the
message to every dashboard client under `clients_lock`.  `now` is the
wall-clock instant of the pass (the source calls `datetime.utcnow()`
inside each prune; the claims' scenarios are instantaneous, so one
instant serves the whole pass).  `fuel` bounds the recursion between
`broadcast` and the prunes. -/
def broadcastGo : ℕ → ℤ → Event → Sys → Locks → ExecRes
  | 0, _, _, _, _ => .fuelOut
  | fuel + 1, now, msg, s, L =>
    match pruneDronesGo fuel now s L with
    | .ok s1 ev1 =>
      match pruneOfficersGo fuel now s1 L with
      | .ok s2 ev2 =>
        if L.clients then .deadlock s2 (ev1 ++ ev2)
        else
          let r := deliverLoop s2.clients msg
          .ok { s2 with clients := r.1 } (ev1 ++ ev2 ++ r.2)
      | .deadlock s' ev => .deadlock s' (ev1 ++ ev)
      | .fuelOut => .fuelOut
    | .deadlock s' ev => .deadlock s' ev
    | .fuelOut => .fuelOut

/-- `prune_stale_drones()` (src/main.py lines 168-185): under
`drones_lock`, compute the stale ids, then for each one flip its
`is_live` and `await broadcast({type: "status", ...})` — still holding
`drones_lock`, which is why a non-empty stale list deadlocks: the nested
`broadcast` re-enters this function and re-acquires the held lock. -/
def pruneDronesGo : ℕ → ℤ → Sys → Locks → ExecRes
  | 0, _, _, _ => .fuelOut
  | fuel + 1, now, s, L =>
    if L.drones then .deadlock s []
    else
      let L' : Locks := { L with drones := true }
      let step : ExecRes → String → ExecRes := fun acc drone_id =>
        match acc with
        | .ok s ev =>
          let s' : Sys := { s with drones := flipDrone s.drones drone_id }
          let nick := ((dictGet s'.drones drone_id).map (fun d => d.nickname)).join
          match broadcastGo fuel now (.status drone_id false nick) s' L' with
          | .ok s'' ev' => .ok s'' (ev ++ ev')
          | .deadlock sd ev' => .deadlock sd (ev ++ ev')
          | .fuelOut => .fuelOut
        | r => r
      (staleDroneIds s.drones now).foldl step (.ok s [])

/-- `prune_stale_officers()` (src/main.py lines 188-205), same shape as
the drone prune but over the officer map under `officers_lock`. -/
def pruneOfficersGo : ℕ → ℤ → Sys → Locks → ExecRes
  | 0, _, _, _ => .fuelOut
  | fuel + 1, now, s, L =>
    if L.officers then .deadlock s []
    else
      let L' : Locks := { L with officers := true }
      let step : ExecRes → String → ExecRes := fun acc officer_id =>
        match acc with
        | .ok s ev =>
          let s' : Sys := { s with officers := flipOfficer s.officers officer_id }
          let nm := ((dictGet s'.officers officer_id).map
            (fun o => o.officer_name)).getD ""
          match broadcastGo fuel now (.officerStatus officer_id false nm) s' L' with
          | .ok s'' ev' => .ok s'' (ev ++ ev')
          | .deadlock sd ev' => .deadlock sd (ev ++ ev')
          | .fuelOut => .fuelOut
        | r => r
      (staleOfficerIds s.officers now).foldl step (.ok s [])

end

/-- The `StatusUpdate` request model (src/main.py lines 34-36). -/
structure StatusUpdate where
  is_live : Bool
  nickname : Option String := none

/-- The `LocationUpdate` request model (src/main.py lines 23-31); the
`timestamp` field defaults to `datetime.utcnow()` at parse time, so by the
time the handler runs it is always present. -/
structure LocationUpdate where
  lat : ℝ
  lng : ℝ
  speed : Option ℝ := none
  alt : Option ℝ := none
  heading : Option ℝ := none
  nickname : Option String := none
  is_live : Bool := true
  timestamp : ℤ

/-- The store mutation of `update_status` (src/main.py lines 242-257):
fetch the current state (or a fresh one for an unknown id), overwrite
`is_live`, overwrite `nickname` only when the payload's nickname is truthy
(`if payload.nickname:` — `None` and `""` both leave the prior value),
stamp `last_seen`, and write back. -/
def updateStatusState (drones : List (String × DroneState)) (drone_id : String)
    (payload : StatusUpdate) (now : ℤ) : List (String × DroneState) :=
  let current := (dictGet drones drone_id).getD
    ⟨drone_id, payload.nickname, payload.is_live, none, now⟩
  let current := { current with is_live := payload.is_live }
  let current :=
    if pyTruthyStr payload.nickname then { current with nickname := payload.nickname }
    else current
  let current := { current with last_seen := now }
  dictSet drones drone_id current

/-- The store mutation of `ingest_location` (src/main.py lines 277-299):
fetch or create, `nickname = payload.nickname or state.nickname`,
overwrite `is_live`, set `last_seen` to the payload timestamp, and replace
`last_location` wholesale with the payload's fields. -/
def ingestLocationState (drones : List (String × DroneState)) (drone_id : String)
    (payload : LocationUpdate) (now : ℤ) : List (String × DroneState) :=
  let state := (dictGet drones drone_id).getD
    ⟨drone_id, payload.nickname, payload.is_live, none, now⟩
  let state := { state with nickname := pyOrStr payload.nickname state.nickname }
  let state := { state with is_live := payload.is_live }
  let state := { state with last_seen := payload.timestamp }
  let newLoc : DroneLoc :=
    ⟨payload.lat, payload.lng, payload.speed, payload.alt, payload.heading,
      payload.timestamp⟩
  let state := { state with last_location := some newLoc }
  dictSet drones drone_id state

/-- The `OfficerLocationUpdate` request model (src/main.py lines 322-328). -/
structure OfficerLocationUpdate where
  lat : ℝ
  lng : ℝ
  officer_name : String
  badge_number : Option String := none
  accuracy : Option ℚ := none
  timestamp : Option String := none

/-- The `OfficerStatusUpdate` request model (src/main.py lines 331-334). -/
structure OfficerStatusUpdate where
  is_online : Bool
  officer_name : String
  badge_number : Option String := none

/-- The store mutation of `update_officer_status` (src/main.py lines
356-374). -/
def updateOfficerStatusState (officers : List (String × OfficerState))
    (officer_id : String) (payload : OfficerStatusUpdate) (now : ℤ) :
    List (String × OfficerState) :=
  let current := (dictGet officers officer_id).getD
    { officer_id := officer_id, officer_name := payload.officer_name,
      badge_number := payload.badge_number, is_online := payload.is_online,
      last_location := none, last_seen := now }
  let current := { current with is_online := payload.is_online }
  let current :=
    if payload.officer_name ≠ "" then { current with officer_name := payload.officer_name }
    else current
  let current :=
    if pyTruthyStr payload.badge_number then { current with badge_number := payload.badge_number }
    else current
  let current := { current with last_seen := now }
  dictSet officers officer_id current

/-- The accuracy filter of `ingest_officer_location` (src/main.py line
401): `if payload.accuracy and payload.accuracy > 50.0` — Python
truthiness makes `None` and `0.0` pass the filter. -/
def accuracyRejected (accuracy : Option ℚ) : Bool :=
  pyTruthyQ accuracy && decide ((accuracy.getD 0) > 50)

/-- A MongoDB write issued by a handler (only the shape the claims need:
which officer's document was updated with which location). -/
structure DbWrite where
  officer_id : String
  loc : OfficerLoc

/-- Everything observable about one `ingest_officer_location` call
(src/main.py lines 394-459): the JSON response (`ok` plus optional
`reason`), the officer map afterwards, the MongoDB writes issued, and the
events handed to `broadcast`. -/
structure IngestOfficerResult where
  ok : Bool
  reason : Option String
  officers : List (String × OfficerState)
  dbWrites : List DbWrite
  broadcasts : List Event

/-- `ingest_officer_location` (src/main.py lines 394-459): reject poor
accuracy before any effect; otherwise persist to MongoDB, update the
in-memory state under `officers_lock` (name and badge keep prior values
when the payload's are falsy, `is_online` forced true, `last_seen` and
`last_location` refreshed), then broadcast. -/
def ingestOfficerLocation (officers : List (String × OfficerState))
    (officer_id : String) (payload : OfficerLocationUpdate) (now : ℤ) :
    IngestOfficerResult :=
  if accuracyRejected payload.accuracy then
    { ok := false, reason := some "Poor accuracy", officers := officers,
      dbWrites := [], broadcasts := [] }
  else
    let location_data : OfficerLoc :=
      ⟨payload.lat, payload.lng, payload.accuracy, now⟩
    let state := (dictGet officers officer_id).getD
      { officer_id := officer_id, officer_name := payload.officer_name,
        badge_number := payload.badge_number, is_online := true,
        last_location := none, last_seen := now }
    let state := { state with officer_name := pyOrStr' payload.officer_name state.officer_name }
    let state := { state with badge_number := pyOrStr payload.badge_number state.badge_number }
    let state := { state with is_online := true }
    let state := { state with last_seen := now }
    let state := { state with last_location := some location_data }
    { ok := true, reason := none,
      officers := dictSet officers officer_id state,
      dbWrites := [⟨officer_id, location_data⟩],
      broadcasts := [.officerLocationUpdate officer_id payload.lat payload.lng] }

/-- `calculate_distance` (src/sos_endpoints.py lines 5-19): the haversine
great-circle distance in kilometres.  `math.radians x = x * π / 180`. -/
noncomputable def calculate_distance (lat1 lng1 lat2 lng2 : ℝ) : ℝ :=
  let lon1 := lng1 * Real.pi / 180
  let lat1r := lat1 * Real.pi / 180
  let lon2 := lng2 * Real.pi / 180
  let lat2r := lat2 * Real.pi / 180
  let dlon := lon2 - lon1
  let dlat := lat2r - lat1r
  let a := Real.sin (dlat / 2) ^ 2 +
    Real.cos lat1r * Real.cos lat2r * Real.sin (dlon / 2) ^ 2
  let c := 2 * Real.arcsin (Real.sqrt a)
  c * 6371

open Classical in
/-- The body of the `find_nearby_officers` loop (src/sos_endpoints.py
lines 25-35): skip the triggering id and offline officers, skip officers
with no `last_location`, append those within `radius_km`. -/
noncomputable def nearbyStep (officer_id : String) (lat lng radius_km : ℝ)
    (nearby : List String) (p : String × OfficerState) : List String :=
  if p.1 = officer_id ∨ p.2.is_online = false then nearby
  else
    match p.2.last_location with
    | some loc =>
      if calculate_distance lat lng loc.lat loc.lng ≤ radius_km then
        nearby ++ [p.1]
      else nearby
    | none => nearby

/-- `find_nearby_officers` (src/sos_endpoints.py lines 22-36): walk the
officer dict in order, accumulating with `nearbyStep`. -/
noncomputable def find_nearby_officers (officers : List (String × OfficerState))
    (officer_id : String) (lat lng : ℝ) (radius_km : ℝ) : List String :=
  officers.foldl (nearbyStep officer_id lat lng radius_km) []

/-- A Python runtime error raised by a handler (FastAPI turns it into a
500 response; none of the handler's remaining effects run). -/
inductive PyError where
  | typeError (msg : String)

/-- What a successful `trigger_sos` call produces: the officer map after
the SOS sub-state update, the nearby-id list, and the events handed to
`broadcast`. -/
structure TriggerSosOk where
  officers : List (String × OfficerState)
  nearby_officers : List String
  broadcasts : List Event

/-- Set the five SOS attributes on an existing officer, as the
`officer_id in officers` branch of `trigger_sos` does
(src/sos_endpoints.py lines 113-119). -/
def setSos (o : OfficerState) (now : ℤ) (emergency_type : String)
    (message_text : Option String) (audio_url : Option String) : OfficerState :=
  let o := { o with sos_active := true }
  let o := { o with sos_triggered_at := some now }
  let o := { o with sos_type := some emergency_type }
  let o := { o with sos_message := message_text }
  let o := { o with sos_audio_url := audio_url }
  o

/-- Clear the five SOS attributes, as `cancel_sos` does
(src/sos_endpoints.py lines 199-204). -/
def clearSos (o : OfficerState) : OfficerState :=
  let o := { o with sos_active := false }
  let o := { o with sos_triggered_at := none }
  let o := { o with sos_type := none }
  let o := { o with sos_message := none }
  let o := { o with sos_audio_url := none }
  o

/-- `trigger_sos` (src/sos_endpoints.py lines 54-188), audio upload
elided (the `audio_url` it computes is an input here).  Under
`officers_lock`: an existing officer gets its SOS attributes set; an
unknown officer id reaches `OfficerState(..., sos_active=True, ...)`,
whose keyword arguments the dataclass `__init__` must accept — it does
not, so the call raises `TypeError` and the handler dies before the
nearby computation, the MongoDB insert and the broadcast.  On the happy
path the nearby list is computed from the updated map with the fixed
`radius_km=2.0` and the alert event is broadcast. -/
noncomputable def triggerSos (officers : List (String × OfficerState))
    (officer_id : String) (lat lng : ℝ) (officer_name : String)
    (badge_number : Option String) (emergency_type : String)
    (message_text : Option String) (audio_url : Option String) (now : ℤ) :
    Except PyError TriggerSosOk :=
  match dictGet officers officer_id with
  | some officer =>
    let officers := dictSet officers officer_id
      (setSos officer now emergency_type message_text audio_url)
    let nearby := find_nearby_officers officers officer_id lat lng 2
    .ok { officers := officers, nearby_officers := nearby,
          broadcasts := [.officerSosAlert officer_id nearby] }
  | none =>
    if kwargsAccepted officerStateInitFields triggerSosNewStateKwargs then
      let newLoc : OfficerLoc := ⟨lat, lng, none, now⟩
      let newOfficer : OfficerState :=
        { officer_id := officer_id, officer_name := officer_name,
          badge_number := badge_number, is_online := true,
          last_location := some newLoc, last_seen := now,
          sos_active := true, sos_triggered_at := some now,
          sos_type := some emergency_type, sos_message := message_text,
          sos_audio_url := audio_url }
      let officers := dictSet officers officer_id newOfficer
      let nearby := find_nearby_officers officers officer_id lat lng 2
      .ok { officers := officers, nearby_officers := nearby,
            broadcasts := [.officerSosAlert officer_id nearby] }
    else
      .error (.typeError "OfficerState.__init__ got an unexpected keyword argument sos_active")

/-- `cancel_sos` (src/sos_endpoints.py lines 191-233): under
`officers_lock`, clear the SOS attributes of the officer if it exists
(an unknown id changes nothing); then (best-effort MongoDB update,
elided) broadcast the cancellation event unconditionally. -/
def cancelSos (officers : List (String × OfficerState)) (officer_id : String)
    (reason : String) : List (String × OfficerState) × List Event :=
  let officers' :=
    match dictGet officers officer_id with
    | some officer => dictSet officers officer_id (clearSos officer)
    | none => officers
  (officers', [.officerSosCancelled officer_id reason])

/-! ## Dictionary lemmas -/

theorem dictGet_map_update_self {α : Type} (t : List (String × α)) (k : String)
    (v : α) (hk : dictHasKey t k = true) :
    dictGet (t.map (fun q => if q.1 = k then (k, v) else q)) k = some v := by
  induction t with
  | nil => simp [dictHasKey] at hk
  | cons q u ih =>
    by_cases hq : q.1 = k
    · simp [dictGet, hq]
    · have hu : dictHasKey u k = true := by
        simpa [dictHasKey, hq] using hk
      simpa [dictGet, hq] using ih hu

theorem dictGet_append_single_self {α : Type} (t : List (String × α))
    (k : String) (v : α) (hk : dictHasKey t k = false) :
    dictGet (t ++ [(k, v)]) k = some v := by
  induction t with
  | nil => simp [dictGet]
  | cons q u ih =>
    have hq : (q.1 = k) = False := by
      by_cases h : q.1 = k
      · simp [dictHasKey, h] at hk
      · simp [h]
    have hu : dictHasKey u k = false := by
      by_cases h : dictHasKey u k
      · simp [dictHasKey, h] at hk
      · simpa using h
    simpa [dictGet, hq] using ih hu

theorem dictGet_map_update_other {α : Type} (t : List (String × α))
    (k k' : String) (v : α) (hne : k' ≠ k) :
    dictGet (t.map (fun q => if q.1 = k then (k, v) else q)) k' = dictGet t k' := by
  induction t with
  | nil => simp [dictGet]
  | cons q u ih =>
    by_cases hq : q.1 = k
    · have h1 : (k = k') = False := by simp [Ne.symm hne]
      have h2 : (q.1 = k') = False := by simp [hq, Ne.symm hne]
      simpa [dictGet, hq, h1, h2] using ih
    · by_cases hq' : q.1 = k'
      · have h3 : (k' = k) = False := by simp [hne]
        simp [dictGet, hq, hq', h3]
      · simpa [dictGet, hq, hq'] using ih

theorem dictGet_append_single_other {α : Type} (t : List (String × α))
    (k k' : String) (v : α) (hne : k' ≠ k) :
    dictGet (t ++ [(k, v)]) k' = dictGet t k' := by
  induction t with
  | nil => simp [dictGet, Ne.symm hne]
  | cons q u ih =>
    by_cases hq' : q.1 = k'
    · simp [dictGet, hq']
    · simpa [dictGet, hq'] using ih

theorem dictGet_dictSet_self {α : Type} (m : List (String × α)) (k : String)
    (v : α) : dictGet (dictSet m k v) k = some v := by
  unfold dictSet
  by_cases hk : dictHasKey m k
  · simpa [hk] using dictGet_map_update_self m k v hk
  · have hk' : dictHasKey m k = false := by simpa using hk
    simpa [hk'] using dictGet_append_single_self m k v hk'

theorem dictGet_dictSet_other {α : Type} (m : List (String × α)) (k k' : String)
    (v : α) (hne : k' ≠ k) : dictGet (dictSet m k v) k' = dictGet m k' := by
  unfold dictSet
  by_cases hk : dictHasKey m k
  · simpa [hk] using dictGet_map_update_other m k k' v hne
  · have hk' : dictHasKey m k = false := by simpa using hk
    simpa [hk'] using dictGet_append_single_other m k k' v hne

/-! ## C10: poor-accuracy officer locations are rejected before any effect -/

/-- C10: an officer location ingestion whose reported accuracy is present and
greater than 50.0 m is rejected before any effect: the endpoint answers
`ok=false` with reason "Poor accuracy", and neither the officer map, nor the
MongoDB writes, nor the broadcast list reflects the update. -/
theorem ingest_officer_location_rejects_poor_accuracy
    (officers : List (String × OfficerState)) (officer_id : String)
    (payload : OfficerLocationUpdate) (now : ℤ) (a : ℚ)
    (hacc : payload.accuracy = some a) (h50 : a > 50) :
    ingestOfficerLocation officers officer_id payload now =
      { ok := false, reason := some "Poor accuracy", officers := officers,
        dbWrites := [], broadcasts := [] } := by
  have ha0 : a ≠ 0 := by
    intro h
    rw [h] at h50
    norm_num at h50
  have hrej : accuracyRejected payload.accuracy = true := by
    simp [accuracyRejected, pyTruthyQ, hacc, ha0, h50]
  simp [ingestOfficerLocation, hrej]

/-- Witness for C10 at a concrete input: accuracy 60 m > 50 m is rejected
with no state change, no DB write and no broadcast. -/
theorem ingest_officer_location_rejects_poor_accuracy_witness :
    ({ lat := 0, lng := 0, officer_name := "A", accuracy := some 60 } :
        OfficerLocationUpdate).accuracy = some 60 ∧ (60 : ℚ) > 50 ∧
      ingestOfficerLocation [] "o1"
        { lat := 0, lng := 0, officer_name := "A", accuracy := some 60 } 0 =
        { ok := false, reason := some "Poor accuracy", officers := [],
          dbWrites := [], broadcasts := [] } :=
  ⟨rfl, by decide,
    ingest_officer_location_rejects_poor_accuracy [] "o1"
      { lat := 0, lng := 0, officer_name := "A", accuracy := some 60 } 0 60
      rfl (by decide)⟩

/-! ## C2: partial-update (upsert) semantics -/

/-- C2 counterexample: the claim says every provided field overwrites the
prior value.  A status update that provides the nickname `""` (a legal,
present value of the optional field) does not overwrite the prior
nickname `"X"`, because `update_status` guards the write with Python
truthiness (`if payload.nickname:`), under which `""` counts as absent. -/
theorem update_status_provided_empty_nickname_not_written :
    (dictGet
        (updateStatusState [("d1", ⟨"d1", some "X", true, none, 0⟩)] "d1"
          { is_live := true, nickname := some "" } 5)
        "d1").map (fun d => d.nickname) ≠ some (some "") := by
  decide

/-- C2 (amended): on an existing entry, fields absent from the patch keep
their prior values, and provided fields overwrite — except that a provided
falsy nickname (the empty string) is treated as absent and the prior
nickname is kept.  `update_status` additionally stamps `last_seen` with the
call time; `ingest_location` overwrites `is_live`, `last_seen` (from the
payload timestamp) and the whole `last_location`, and applies the same
truthiness rule to the nickname. -/
theorem upsert_partial_update_semantics
    (drones : List (String × DroneState)) (drone_id : String)
    (p : StatusUpdate) (q : LocationUpdate) (now : ℤ) (prior : DroneState)
    (h : dictGet drones drone_id = some prior) :
    dictGet (updateStatusState drones drone_id p now) drone_id =
      some { prior with
              is_live := p.is_live,
              nickname := if pyTruthyStr p.nickname then p.nickname else prior.nickname,
              last_seen := now } ∧
    dictGet (ingestLocationState drones drone_id q now) drone_id =
      some { prior with
              nickname := pyOrStr q.nickname prior.nickname,
              is_live := q.is_live,
              last_seen := q.timestamp,
              last_location :=
                some ⟨q.lat, q.lng, q.speed, q.alt, q.heading, q.timestamp⟩ } := by
  constructor
  · unfold updateStatusState
    rw [h]
    by_cases ht : pyTruthyStr p.nickname
    · simp [ht, dictGet_dictSet_self]
    · simp [ht, dictGet_dictSet_self]
  · unfold ingestLocationState
    rw [h]
    simp [dictGet_dictSet_self]

/-- Witness for C2's amended theorem at a concrete input: a patch without a
nickname keeps the prior nickname `"X"` and the prior location, while the
provided `is_live` is overwritten. -/
theorem upsert_partial_update_semantics_witness :
    dictGet [("d1", (⟨"d1", some "X", true, none, 0⟩ : DroneState))] "d1" =
      some ⟨"d1", some "X", true, none, 0⟩ ∧
    dictGet
        (updateStatusState [("d1", ⟨"d1", some "X", true, none, 0⟩)] "d1"
          { is_live := false } 7)
        "d1" = some ⟨"d1", some "X", false, none, 7⟩ :=
  ⟨rfl,
    (upsert_partial_update_semantics
      [("d1", ⟨"d1", some "X", true, none, 0⟩)] "d1"
      { is_live := false } { lat := 0, lng := 0, timestamp := 7 } 7
      ⟨"d1", some "X", true, none, 0⟩ rfl).1⟩

/-! ## C3: fan-out and failed-connection removal -/

theorem deliverLoop_eq (clients : List (String × Bool)) (msg : Event) :
    deliverLoop clients msg =
      (clients.filter (fun c => !c.2),
       (clients.filter (fun c => !c.2)).map (fun c => (c, msg))) := by
  unfold deliverLoop
  by_cases h : clients.isEmpty
  · have : clients = [] := List.isEmpty_iff.mp h
    subst this
    simp
  · simp [h]

theorem pruneDronesGo_no_stale (fuel : ℕ) (now : ℤ) (s : Sys) (L : Locks)
    (hd : staleDroneIds s.drones now = []) (hL : L.drones = false) :
    pruneDronesGo (fuel + 1) now s L = .ok s [] := by
  unfold pruneDronesGo
  rw [hd]
  simp [hL]

theorem pruneOfficersGo_no_stale (fuel : ℕ) (now : ℤ) (s : Sys) (L : Locks)
    (ho : staleOfficerIds s.officers now = []) (hL : L.officers = false) :
    pruneOfficersGo (fuel + 1) now s L = .ok s [] := by
  unfold pruneOfficersGo
  rw [ho]
  simp [hL]

/-- C3 counterexample: the claim promises delivery to every currently
subscribed connection for every published event, unconditionally.  It fails
on a publish pass in which the liveness monitor finds a staleness
transition: with one online officer 100 s stale and one healthy subscriber,
`broadcast` deadlocks inside `prune_stale_officers` (the nested `broadcast`
re-acquires `officers_lock` held by the same task), and the delivery list
is empty — the healthy subscribed connection never receives the event. -/
theorem broadcast_stale_officer_pass_delivers_to_no_subscriber :
    broadcastGo 8 100 (.status "d9" true none)
        ⟨[], [("o1", { officer_id := "o1", officer_name := "Alice",
                       badge_number := none, is_online := true,
                       last_location := none, last_seen := 0 })],
         [("c1", false)]⟩ Locks.free =
      .deadlock
        ⟨[], [("o1", { officer_id := "o1", officer_name := "Alice",
                       badge_number := none, is_online := false,
                       last_location := none, last_seen := 0 })],
         [("c1", false)]⟩ [] := by
  rfl

/-- C3 (amended): in every publish pass in which the liveness monitor finds
no staleness transition — the only passes that complete; a pass that finds
one deadlocks before any delivery (the C1/C4 defect) — `broadcast` delivers
the event to every currently subscribed connection whose send works; a
connection whose send raises is removed from the subscriber set — the
exception is swallowed, `ExecRes` has no exception outcome, so the publish
call never raises to its caller — and a removed connection is absent from
every subsequent delivery loop. -/
theorem broadcast_fanout_and_failed_removal (fuel : ℕ) (now : ℤ) (msg : Event)
    (s : Sys) (hd : staleDroneIds s.drones now = [])
    (ho : staleOfficerIds s.officers now = []) :
    broadcastGo (fuel + 3) now msg s Locks.free =
      .ok { s with clients := s.clients.filter (fun c => !c.2) }
        ((s.clients.filter (fun c => !c.2)).map (fun c => (c, msg))) ∧
    (∀ c ∈ s.clients, c.2 = false →
      (c, msg) ∈ (s.clients.filter (fun c => !c.2)).map (fun c => (c, msg))) ∧
    (∀ c ∈ s.clients, c.2 = true →
      c ∉ s.clients.filter (fun c => !c.2) ∧
        ∀ e : Event,
          (c, e) ∉ (deliverLoop (s.clients.filter (fun c => !c.2)) e).2) := by
  refine ⟨?_, ?_, ?_⟩
  · have h1 : pruneDronesGo (fuel + 2) now s Locks.free = .ok s [] :=
      pruneDronesGo_no_stale (fuel + 1) now s Locks.free hd rfl
    have h2 : pruneOfficersGo (fuel + 2) now s Locks.free = .ok s [] :=
      pruneOfficersGo_no_stale (fuel + 1) now s Locks.free ho rfl
    show broadcastGo (fuel + 2 + 1) now msg s Locks.free = _
    unfold broadcastGo
    rw [h1]
    simp only [h2]
    simp [Locks.free, deliverLoop_eq]
  · intro c hc hfl
    simp only [List.mem_map]
    exact ⟨c, List.mem_filter.mpr ⟨hc, by simp [hfl]⟩, rfl⟩
  · intro c hc hfl
    constructor
    · intro hmem
      have := (List.mem_filter.mp hmem).2
      simp [hfl] at this
    · intro e hmem
      rw [deliverLoop_eq] at hmem
      simp only [List.mem_map] at hmem
      rcases hmem with ⟨d, hd', heq⟩
      have hdc : d = c := congrArg Prod.fst heq
      subst hdc
      have := (List.mem_filter.mp (List.mem_filter.mp hd').1).2
      simp [hfl] at this

/-- Witness for C3 at a concrete input: two subscribers, one healthy and one
whose send raises; the healthy one receives the event, the broken one is
removed. -/
theorem broadcast_fanout_and_failed_removal_witness :
    staleDroneIds (([]) : List (String × DroneState)) 0 = [] ∧
    staleOfficerIds (([]) : List (String × OfficerState)) 0 = [] ∧
    broadcastGo 3 0 (.officerSosCancelled "x" "r")
        ⟨[], [], [("a", false), ("b", true)]⟩ Locks.free =
      .ok ⟨[], [], [("a", false)]⟩
        [(("a", false), .officerSosCancelled "x" "r")] :=
  ⟨rfl, rfl,
    (broadcast_fanout_and_failed_removal 0 0 (.officerSosCancelled "x" "r")
      ⟨[], [], [("a", false), ("b", true)]⟩ rfl rfl).1⟩

/-! ## C1 and C4: the prune-inside-broadcast deadlock

`prune_stale_drones` flips a stale drone and then, still holding
`drones_lock`, awaits `broadcast`, whose first action is to re-enter
`prune_stale_drones` and re-acquire `drones_lock` — a non-reentrant
`asyncio.Lock` held by the same task, so the task suspends forever.  The
same happens for `officers_lock` in `prune_stale_officers`.  Hence any
prune pass that finds at least one stale entry hangs: later stale entries
are never flipped, no changed-id is ever yielded, and neither the status
events nor the triggering event are delivered. -/

/-- C1: the prune contract fails on the code.  With two live drones both
91 s stale, the prune call flips only the first one and then deadlocks
(re-acquiring `drones_lock` inside the nested `broadcast`): the second
stale entry is never flipped and the call never returns, so it yields no
changed-id list at all — against the claim that it flips exactly the
stale set and yields exactly those ids. -/
theorem prune_stale_drones_deadlocks_and_flips_only_first :
    pruneDronesGo 6 91
        ⟨[("d1", ⟨"d1", none, true, none, 0⟩),
          ("d2", ⟨"d2", none, true, none, 0⟩)], [], []⟩ Locks.free =
      .deadlock
        ⟨[("d1", ⟨"d1", none, false, none, 0⟩),
          ("d2", ⟨"d2", none, true, none, 0⟩)], [], []⟩ [] := by
  rfl

/-- C4: the publish pass fails on the code.  With one live drone 91 s
stale and one healthy subscriber, `broadcast` deadlocks inside the drone
prune: the staleness status event is never delivered, and neither is the
triggering event — no observer receives anything from this pass. -/
theorem broadcast_deadlocks_when_stale_transition_found :
    broadcastGo 8 1000 (.officerSosCancelled "o1" "r")
        ⟨[("d1", ⟨"d1", none, true, none, 0⟩)], [], [("c1", false)]⟩
        Locks.free =
      .deadlock
        ⟨[("d1", ⟨"d1", none, false, none, 0⟩)], [], [("c1", false)]⟩ [] := by
  rfl

/-! ## C5: SOS trigger for an unknown officer -/

/-- C5: the claim fails on the code.  The `OfficerState` dataclass declares
no SOS fields, yet the unknown-officer branch of `trigger_sos` calls
`OfficerState(..., sos_active=True, sos_triggered_at=now, ...)`; the
dataclass `__init__` rejects the extra keywords, so the handler raises
`TypeError` before creating any entry, computing the nearby list or
broadcasting the alert.  Concretely here: triggering SOS with an empty
officer map errors out instead of creating the entry. -/
theorem trigger_sos_unknown_officer_raises_type_error :
    kwargsAccepted officerStateInitFields triggerSosNewStateKwargs = false ∧
    triggerSos [] "o1" 0 0 "Name" none "high_emergency" none none 0 =
      .error (.typeError
        "OfficerState.__init__ got an unexpected keyword argument sos_active") :=
  ⟨rfl, rfl⟩

/-! ## C6: video relay producer replacement

`websocket_video_upload` (src/main.py lines 973-994) stores the newest
producer connection in the global `drone_camera_socket`, but each upload
connection runs its own receive loop, and the relay inside that loop never
consults the global: every open upload connection keeps relaying the frames
it receives to all viewers.  The model below is a trace semantics over
those handler loops. -/

/-- Video relay state: the `drone_camera_socket` global, the set of open
upload connections (each with a live receive loop), and `video_viewers`. -/
structure VideoSys where
  producer : Option String
  uploads : List String
  viewers : List String

/-- One observable step of the video endpoints: a producer connection
attaches (`/ws/video/upload` accept), an open upload connection receives a
binary frame, an upload connection disconnects, or a viewer attaches. -/
inductive VideoEv where
  | attachProducer (c : String)
  | frame (c : String) (data : List ℕ)
  | uploadDisconnect (c : String)
  | attachViewer (v : String)

/-- Step function for the video relay, faithful to src/main.py lines
958-994: `attachProducer` overwrites the global and starts the
connection's receive loop; a `frame` received by any open upload loop is
relayed to every current viewer (the loop never checks
`drone_camera_socket`); `uploadDisconnect` ends that loop and sets the
global to `None` (whichever connection it was); `attachViewer` joins the
viewer set.  The second component lists the deliveries
(viewer, upload-connection, bytes). -/
def videoStep (s : VideoSys) (e : VideoEv) :
    VideoSys × List (String × String × List ℕ) :=
  match e with
  | .attachProducer c =>
    ({ s with producer := some c, uploads := s.uploads ++ [c] }, [])
  | .frame c data =>
    if s.uploads.contains c then (s, s.viewers.map (fun v => (v, c, data)))
    else (s, [])
  | .uploadDisconnect c =>
    ({ s with producer := none, uploads := s.uploads.erase c }, [])
  | .attachViewer v =>
    ({ s with viewers := s.viewers ++ [v] }, [])

/-- Run a trace of video events, accumulating all deliveries. -/
def videoRun (s : VideoSys) : List VideoEv →
    VideoSys × List (String × String × List ℕ)
  | [] => (s, [])
  | e :: es =>
    let r := videoStep s e
    let r' := videoRun r.1 es
    (r'.1, r.2 ++ r'.2)

/-- C6 counterexample: the claim says that after producer B attaches,
frames sent by the superseded producer A are no longer relayed.  In the
trace (viewer attaches, A attaches, B attaches, A sends a frame) the
viewer nevertheless receives A's frame: A's receive loop is still open and
relays without consulting the producer slot. -/
theorem video_superseded_producer_frame_still_relayed :
    ("v1", "A", [7]) ∈
      (videoRun ⟨none, [], []⟩
        [.attachViewer "v1", .attachProducer "A", .attachProducer "B",
         .frame "A" [7]]).2 := by
  decide

/-- C6 (amended): attaching a new producer only overwrites the
single producer slot (last attach wins); it does not stop the relay of
frames from a superseded producer whose connection is still open — a frame
received by any open upload connection is relayed to exactly the current
viewers, one delivery per viewer (so no frame is duplicated across the
switch), and a frame from a closed connection is not relayed at all. -/
theorem video_producer_replacement_semantics (s : VideoSys) (c : String)
    (data : List ℕ) :
    (videoStep s (.attachProducer c)).1.producer = some c ∧
    (s.uploads.contains c = true →
      (videoStep s (.frame c data)).2 = s.viewers.map (fun v => (v, c, data))) ∧
    (s.uploads.contains c = false →
      (videoStep s (.frame c data)).2 = []) := by
  refine ⟨rfl, ?_, ?_⟩
  · intro h
    have h' : c ∈ s.uploads := by simpa using h
    simp [videoStep, h']
  · intro h
    have h' : c ∉ s.uploads := by simpa using h
    simp [videoStep, h']

/-- Witness for C6's amended theorem at a concrete input: connection "A"
open, viewers "v1" and "v2", one frame relayed exactly once to each. -/
theorem video_producer_replacement_semantics_witness :
    (["A"].contains "A" = true) ∧
    (videoStep ⟨some "B", ["A"], ["v1", "v2"]⟩ (.frame "A" [1, 2])).2 =
      [("v1", "A", [1, 2]), ("v2", "A", [1, 2])] :=
  ⟨rfl,
    (video_producer_replacement_semantics ⟨some "B", ["A"], ["v1", "v2"]⟩
      "A" [1, 2]).2.1 rfl⟩

/-! ## C7: the SOS nearby filter -/

/-- The inclusion condition an officer entry must meet to be collected by
the `find_nearby_officers` loop. -/
def nearbyCond (officer_id : String) (lat lng radius_km : ℝ)
    (x : String) (o : OfficerState) : Prop :=
  x ≠ officer_id ∧ o.is_online = true ∧
    ∃ loc : OfficerLoc, o.last_location = some loc ∧
      calculate_distance lat lng loc.lat loc.lng ≤ radius_km

theorem mem_foldl_nearbyStep (officer_id : String) (lat lng radius_km : ℝ)
    (l : List (String × OfficerState)) :
    ∀ (acc : List String) (x : String),
      x ∈ l.foldl (nearbyStep officer_id lat lng radius_km) acc ↔
        x ∈ acc ∨ ∃ o : OfficerState, (x, o) ∈ l ∧
          nearbyCond officer_id lat lng radius_km x o := by
  induction l with
  | nil => intro acc x; simp
  | cons p t ih =>
    intro acc x
    rw [List.foldl_cons, ih]
    by_cases hskip : p.1 = officer_id ∨ p.2.is_online = false
    · have hstep : nearbyStep officer_id lat lng radius_km acc p = acc := by
        unfold nearbyStep
        rw [if_pos hskip]
      rw [hstep]
      constructor
      · rintro (h | ⟨o, ho, hc⟩)
        · exact Or.inl h
        · exact Or.inr ⟨o, List.mem_cons_of_mem p ho, hc⟩
      · rintro (h | ⟨o, ho, hc⟩)
        · exact Or.inl h
        · rcases List.mem_cons.mp ho with heq | ht
          · exfalso
            have hx : x = p.1 := congrArg Prod.fst heq
            have ho' : o = p.2 := congrArg Prod.snd heq
            rcases hskip with h1 | h1
            · exact hc.1 (hx.trans h1)
            · have hon : o.is_online = true := hc.2.1
              rw [ho', h1] at hon
              exact Bool.false_ne_true hon
          · exact Or.inr ⟨o, ht, hc⟩
    · rcases hloc : p.2.last_location with _ | loc
      · have hstep : nearbyStep officer_id lat lng radius_km acc p = acc := by
          unfold nearbyStep
          rw [if_neg hskip, hloc]
        rw [hstep]
        constructor
        · rintro (h | ⟨o, ho, hc⟩)
          · exact Or.inl h
          · exact Or.inr ⟨o, List.mem_cons_of_mem p ho, hc⟩
        · rintro (h | ⟨o, ho, hc⟩)
          · exact Or.inl h
          · rcases List.mem_cons.mp ho with heq | ht
            · exfalso
              have ho' : o = p.2 := congrArg Prod.snd heq
              rcases hc.2.2 with ⟨loc', hloc', _⟩
              rw [ho', hloc] at hloc'
              exact Option.noConfusion hloc'
            · exact Or.inr ⟨o, ht, hc⟩
      · by_cases hdist : calculate_distance lat lng loc.lat loc.lng ≤ radius_km
        · have hstep : nearbyStep officer_id lat lng radius_km acc p =
              acc ++ [p.1] := by
            simp [nearbyStep, hskip, hloc, hdist]
          rw [hstep]
          constructor
          · rintro (h | ⟨o, ho, hc⟩)
            · rcases List.mem_append.mp h with h | h
              · exact Or.inl h
              · have hx : x = p.1 := by simpa using h
                refine Or.inr ⟨p.2, by rw [hx]; exact List.mem_cons_self _ _, ?_, ?_, loc, hloc, hdist⟩
                · intro hxo
                  exact hskip (Or.inl (hx ▸ hxo))
                · rcases Bool.eq_false_or_eq_true p.2.is_online with h1 | h1
                  · exact h1
                  · exact absurd (Or.inr h1) hskip

            · exact Or.inr ⟨o, List.mem_cons_of_mem p ho, hc⟩
          · rintro (h | ⟨o, ho, hc⟩)
            · exact Or.inl (List.mem_append.mpr (Or.inl h))
            · rcases List.mem_cons.mp ho with heq | ht
              · have hx : x = p.1 := congrArg Prod.fst heq
                exact Or.inl (List.mem_append.mpr (Or.inr (by simp [hx])))
              · exact Or.inr ⟨o, ht, hc⟩
        · have hstep : nearbyStep officer_id lat lng radius_km acc p = acc := by
            simp [nearbyStep, hskip, hloc, hdist]
          rw [hstep]
          constructor
          · rintro (h | ⟨o, ho, hc⟩)
            · exact Or.inl h
            · exact Or.inr ⟨o, List.mem_cons_of_mem p ho, hc⟩
          · rintro (h | ⟨o, ho, hc⟩)
            · exact Or.inl h
            · rcases List.mem_cons.mp ho with heq | ht
              · exfalso
                have ho' : o = p.2 := congrArg Prod.snd heq
                rcases hc.2.2 with ⟨loc', hloc', hd'⟩
                rw [ho', hloc] at hloc'
                have : loc' = loc := by
                  injection hloc' with h
                  exact h.symm ▸ rfl
                rw [this] at hd'
                exact hdist hd'
              · exact Or.inr ⟨o, ht, hc⟩

/-- C7: the nearby list computed for an SOS trigger contains exactly the
ids of officers other than the triggering id that are online and whose
stored location lies within `radius_km` great-circle distance (officers
with no stored location have no distance and are not collected). -/
theorem find_nearby_officers_spec (officers : List (String × OfficerState))
    (officer_id : String) (lat lng radius_km : ℝ) (x : String) :
    x ∈ find_nearby_officers officers officer_id lat lng radius_km ↔
      ∃ o : OfficerState, (x, o) ∈ officers ∧ x ≠ officer_id ∧
        o.is_online = true ∧
        ∃ loc : OfficerLoc, o.last_location = some loc ∧
          calculate_distance lat lng loc.lat loc.lng ≤ radius_km := by
  unfold find_nearby_officers
  rw [mem_foldl_nearbyStep]
  simp [nearbyCond]

/-! ## C8: SOS cancel clears atomically; the SOS invariant -/

/-- The spec invariant: `sos_active` true implies `sos_started_at`
(`sos_triggered_at` in the source) is set. -/
def sosInv (officers : List (String × OfficerState)) : Prop :=
  ∀ x o, dictGet officers x = some o → o.sos_active = true →
    o.sos_triggered_at.isSome = true

theorem dictGet_flipOfficer (officers : List (String × OfficerState))
    (i x : String) :
    dictGet (flipOfficer officers i) x =
      (dictGet officers x).map
        (fun o => if x = i then { o with is_online := false } else o) := by
  induction officers with
  | nil => simp [flipOfficer, dictGet]
  | cons p t ih =>
    by_cases hp : p.1 = x
    · by_cases hpi : p.1 = i
      · have hxi : x = i := hp.symm.trans hpi
        simp [flipOfficer, dictGet, hp, hpi, hxi]
      · have hxi : ¬x = i := fun h => hpi (hp.trans h)
        simp [flipOfficer, dictGet, hp, hpi, hxi]
    · by_cases hpi : p.1 = i
      · have hix : (i = x) = False := by
          simp only [eq_iff_iff, iff_false]
          intro h
          exact hp (hpi.trans h)
        simpa [flipOfficer, dictGet, hp, hpi, hix] using ih
      · simpa [flipOfficer, dictGet, hp, hpi] using ih

/-- C8: (1) `cancel_sos` always publishes the cancellation event; (2) it
rewrites only the cancelled id's entry, to the fully cleared record — a
single lock-protected map update, so (3) every entry any reader can see is
either the prior record or the fully cleared one, never a partial clear;
(4) cancelling an unknown id leaves the map unchanged; (5) cancelling a
unit whose SOS fields are already clear leaves every entry unchanged; (6)
the `sos_active → sos_started_at set` invariant still holds after the
cancel; and (7) the invariant is preserved by every other officer-map
operation: status update, location ingestion, staleness flip and a
successful SOS trigger. -/
theorem cancel_sos_clears_atomically_and_preserves_invariant
    (officers : List (String × OfficerState)) (officer_id reason : String)
    (hInv : sosInv officers) :
    (cancelSos officers officer_id reason).2 =
        [.officerSosCancelled officer_id reason] ∧
    ((∀ x, x ≠ officer_id →
        dictGet (cancelSos officers officer_id reason).1 x = dictGet officers x) ∧
      dictGet (cancelSos officers officer_id reason).1 officer_id =
        (dictGet officers officer_id).map clearSos) ∧
    (∀ x o', dictGet (cancelSos officers officer_id reason).1 x = some o' →
      dictGet officers x = some o' ∨
        (o'.sos_active = false ∧ o'.sos_triggered_at = none ∧
          o'.sos_type = none ∧ o'.sos_message = none ∧
          o'.sos_audio_url = none)) ∧
    (dictGet officers officer_id = none →
      (cancelSos officers officer_id reason).1 = officers) ∧
    (∀ o, dictGet officers officer_id = some o → o.sos_active = false →
      o.sos_triggered_at = none → o.sos_type = none → o.sos_message = none →
      o.sos_audio_url = none →
      ∀ x, dictGet (cancelSos officers officer_id reason).1 x =
        dictGet officers x) ∧
    sosInv (cancelSos officers officer_id reason).1 ∧
    ((∀ (i : String) (p : OfficerStatusUpdate) (now : ℤ),
        sosInv (updateOfficerStatusState officers i p now)) ∧
      (∀ (i : String) (q : OfficerLocationUpdate) (now : ℤ),
        sosInv (ingestOfficerLocation officers i q now).officers) ∧
      (∀ i : String, sosInv (flipOfficer officers i)) ∧
      (∀ (i : String) (lat lng : ℝ) (nm : String) (bn : Option String)
          (et : String) (mt au : Option String) (now : ℤ)
          (r : TriggerSosOk),
        triggerSos officers i lat lng nm bn et mt au now = .ok r →
        sosInv r.officers)) := by
  have hother : ∀ x, x ≠ officer_id →
      dictGet (cancelSos officers officer_id reason).1 x = dictGet officers x := by
    intro x hx
    unfold cancelSos
    cases hget : dictGet officers officer_id with
    | none => simp
    | some o => simpa using dictGet_dictSet_other officers officer_id x (clearSos o) hx
  have hself : dictGet (cancelSos officers officer_id reason).1 officer_id =
      (dictGet officers officer_id).map clearSos := by
    unfold cancelSos
    cases hget : dictGet officers officer_id with
    | none => simp [hget]
    | some o => simpa using dictGet_dictSet_self officers officer_id (clearSos o)
  refine ⟨rfl, ⟨hother, hself⟩, ?_, ?_, ?_, ?_, ?_, ?_, ?_, ?_⟩
  · intro x o' hx
    by_cases hxid : x = officer_id
    · subst hxid
      rw [hself] at hx
      cases hget : dictGet officers x with
      | none => rw [hget] at hx; exact Option.noConfusion hx
      | some o =>
        rw [hget] at hx
        have : o' = clearSos o := by
          injection hx with h
          exact h.symm
        subst this
        exact Or.inr ⟨rfl, rfl, rfl, rfl, rfl⟩
    · rw [hother x hxid] at hx
      exact Or.inl hx
  · intro hnone
    unfold cancelSos
    rw [hnone]
  · intro o hget h1 h2 h3 h4 h5 x
    by_cases hxid : x = officer_id
    · subst hxid
      rw [hself, hget]
      have : clearSos o = o := by
        cases o
        simp only [clearSos]
        simp_all
      simp [this]
    · exact hother x hxid
  · intro x o' hx hact
    by_cases hxid : x = officer_id
    · subst hxid
      rw [hself] at hx
      cases hget : dictGet officers x with
      | none => rw [hget] at hx; exact Option.noConfusion hx
      | some o =>
        rw [hget] at hx
        have : o' = clearSos o := by
          injection hx with h
          exact h.symm
        subst this
        simp [clearSos] at hact
    · exact hInv x o' ((hother x hxid) ▸ hx) hact
  · intro i p now x o' hx hact
    by_cases hxid : x = i
    · subst hxid
      unfold updateOfficerStatusState at hx
      rw [dictGet_dictSet_self] at hx
      cases hget : dictGet officers x with
      | none =>
        rw [hget] at hx
        injection hx with h
        subst h
        by_cases ht : p.officer_name ≠ ""
        · by_cases hb : pyTruthyStr p.badge_number = true
          · simp [hget, ht, hb] at hact
          · simp [hget, ht, hb] at hact
        · by_cases hb : pyTruthyStr p.badge_number = true
          · simp [hget, ht, hb] at hact
          · simp [hget, ht, hb] at hact
      | some prior =>
        rw [hget] at hx
        injection hx with h
        subst h
        have hsa : ∀ (b : Bool) (t : Option ℤ),
            prior.sos_active = b → prior.sos_triggered_at = t →
            (b = true → t.isSome = true) → True := fun _ _ _ _ _ => trivial
        have := hInv x prior hget
        by_cases ht : p.officer_name ≠ "" <;>
          by_cases hb : pyTruthyStr p.badge_number = true <;>
            simp [hget, ht, hb] at hact ⊢ <;>
              exact this hact
    · unfold updateOfficerStatusState at hx
      rw [dictGet_dictSet_other _ _ _ _ hxid] at hx
      exact hInv x o' hx hact
  · intro i q now x o' hx hact
    unfold ingestOfficerLocation at hx
    by_cases hrej : accuracyRejected q.accuracy = true
    · simp only [hrej, if_true] at hx
      exact hInv x o' hx hact
    · simp only [hrej, if_false, Bool.not_eq_true] at hx
      rw [if_neg (by simp [hrej])] at hx
      by_cases hxid : x = i
      · subst hxid
        rw [dictGet_dictSet_self] at hx
        cases hget : dictGet officers x with
        | none =>
          rw [hget] at hx
          injection hx with h
          subst h
          simp [hget] at hact
        | some prior =>
          rw [hget] at hx
          injection hx with h
          subst h
          have := hInv x prior hget
          simp [hget] at hact ⊢
          exact this hact
      · rw [dictGet_dictSet_other _ _ _ _ hxid] at hx
        exact hInv x o' hx hact
  · intro i x o' hx hact
    rw [dictGet_flipOfficer] at hx
    cases hget : dictGet officers x with
    | none => rw [hget] at hx; exact Option.noConfusion hx
    | some o =>
      rw [hget] at hx
      by_cases hxi : x = i
      · simp only [hxi, if_true, Option.map_some] at hx
        injection hx with h
        subst h
        simp at hact
        exact hInv x o hget hact
      · simp only [hxi, if_false, Option.map_some] at hx
        injection hx with h
        exact hInv x o' (h ▸ hget) hact
  · intro i lat lng nm bn et mt au now r hok x o' hx hact
    unfold triggerSos at hok
    cases hget : dictGet officers i with
    | some officer =>
      rw [hget] at hok
      simp only [Except.ok.injEq] at hok
      subst hok
      simp only at hx
      by_cases hxi : x = i
      · subst hxi
        rw [dictGet_dictSet_self] at hx
        injection hx with h
        subst h
        simp [setSos]
      · rw [dictGet_dictSet_other _ _ _ _ hxi] at hx
        exact hInv x o' hx hact
    | none =>
      rw [hget] at hok
      simp only at hok
      exact Except.noConfusion hok

/-- Witness for C8 at a concrete input: the empty officer map satisfies the
invariant, and cancelling an unknown id still publishes the cancellation
event. -/
theorem cancel_sos_clears_atomically_and_preserves_invariant_witness :
    sosInv [] ∧
    (cancelSos [] "o1" "cancelled_by_officer").2 =
      [.officerSosCancelled "o1" "cancelled_by_officer"] :=
  ⟨fun _ _ h _ => Option.noConfusion h,
    (cancel_sos_clears_atomically_and_preserves_invariant [] "o1"
      "cancelled_by_officer" (fun _ _ h _ => Option.noConfusion h)).1⟩

/-! ## C9: the great-circle distance function -/

theorem sin_half_sub_sq_comm (x y : ℝ) :
    Real.sin ((x - y) / 2) ^ 2 = Real.sin ((y - x) / 2) ^ 2 := by
  have h : (x - y) / 2 = -((y - x) / 2) := by ring
  rw [h, Real.sin_neg]
  ring

/-- C9: `calculate_distance` is symmetric, returns zero for identical
points, and — being the haversine formula with Earth radius `R = 6371` —
evaluates at `(0,0)` vs `(0,1)` to `2·R·arcsin(sin(π/360)) = 6371·π/180 ≈
111.194 km`, within 0.5 km of 111.19. -/
theorem calculate_distance_spec :
    (∀ lat1 lng1 lat2 lng2 : ℝ,
      calculate_distance lat1 lng1 lat2 lng2 =
        calculate_distance lat2 lng2 lat1 lng1) ∧
    (∀ lat lng : ℝ, calculate_distance lat lng lat lng = 0) ∧
    |calculate_distance 0 0 0 1 - 111.19| ≤ 0.5 := by
  refine ⟨?_, ?_, ?_⟩
  · intro lat1 lng1 lat2 lng2
    unfold calculate_distance
    dsimp only
    rw [sin_half_sub_sq_comm (lat2 * Real.pi / 180) (lat1 * Real.pi / 180),
      sin_half_sub_sq_comm (lng2 * Real.pi / 180) (lng1 * Real.pi / 180),
      mul_comm (Real.cos (lat1 * Real.pi / 180)) (Real.cos (lat2 * Real.pi / 180))]
  · intro lat lng
    unfold calculate_distance
    dsimp only
    simp [sub_self, Real.sin_zero, Real.sqrt_zero, Real.arcsin_zero]
  · have hval : calculate_distance 0 0 0 1 = 2 * (Real.pi / 360) * 6371 := by
      unfold calculate_distance
      dsimp only
      have h0 : ((0 : ℝ) * Real.pi / 180 - 0 * Real.pi / 180) / 2 = 0 := by ring
      have h1 : ((1 : ℝ) * Real.pi / 180 - 0 * Real.pi / 180) / 2 =
          Real.pi / 360 := by ring
      rw [h0, h1]
      have hpos : (0 : ℝ) ≤ Real.pi / 360 := by positivity
      have hle : Real.pi / 360 ≤ Real.pi := by nlinarith [Real.pi_pos]
      have hsn : 0 ≤ Real.sin (Real.pi / 360) :=
        Real.sin_nonneg_of_nonneg_of_le_pi hpos hle
      have hsqrt : Real.sqrt (Real.sin (Real.pi / 360) ^ 2) =
          Real.sin (Real.pi / 360) := Real.sqrt_sq hsn
      have hhalf : Real.pi / 360 ≤ Real.pi / 2 := by nlinarith [Real.pi_pos]
      have harc : Real.arcsin (Real.sin (Real.pi / 360)) = Real.pi / 360 :=
        Real.arcsin_sin (by nlinarith [Real.pi_pos]) hhalf
      simp [Real.sin_zero, Real.cos_zero, hsqrt, harc]
    rw [hval, abs_le]
    constructor
    · nlinarith [Real.pi_gt_d6]
    · nlinarith [Real.pi_lt_d6]

end Trinetra
